import Mathlib

/-!
Shallow embedding of the `kms` repository's Vote codec (`src/types/vote.rs`)
and signing session (`src/session.rs`).

Byte strings are modelled as `List Nat` with every element below 256 by
construction.  Fallible decoding is modelled in `Except Failure`, where
`Failure.decodeErr` corresponds to a returned `DecodeError` and
`Failure.panic` corresponds to a Rust panic (an abort that never reaches the
caller as a `Result`).

Functions of the external `amino` crate and of repository modules that are
not part of the source tree (`types/mod.rs`, `rpc.rs`) are modelled from the
specification and are marked as such in their doc comments; where the
specification's prose disagrees with the repository's own byte-level test
vectors (endianness of fixed-width integers, the layout produced by
`amino_time::encode`), the test vectors are followed, since the in-tree
tests pin those bytes exactly.
-/

/-- Failure modes of the decoding pipeline: a `DecodeError` value returned to
the caller, or a Rust panic (e.g. `bytes::Buf::get_u8` on an exhausted
buffer, or `copy_from_slice` with mismatched lengths). -/
inductive Failure where
  | decodeErr (msg : String)
  | panic (msg : String)
deriving DecidableEq

/-- A decoder step: on success, a value together with the bytes remaining in
the cursor. -/
abbrev DRes (α : Type) := Except Failure (α × List Nat)

/-- The wire-level Typ3 shape tags of the amino format (spec section 3). -/
inductive Typ3Byte where
  | Typ3_Varint
  | Typ3_8Byte
  | Typ3_ByteLength
  | Typ3_Struct
  | Typ3_StructTerm
  | Typ3_4Byte
  | Typ3_List
  | Typ3_Interface
deriving DecidableEq

/-- Numeric value of a Typ3 tag nibble. -/
def typ3_to_byte : Typ3Byte → Nat
  | .Typ3_Varint => 0
  | .Typ3_8Byte => 1
  | .Typ3_ByteLength => 2
  | .Typ3_Struct => 3
  | .Typ3_StructTerm => 4
  | .Typ3_4Byte => 5
  | .Typ3_List => 6
  | .Typ3_Interface => 7

/-- Modelled from the spec: `encode_field_number_typ3` of the amino crate
emits the single field-key byte `(field_number << 3) | typ3`. -/
def encode_field_number_typ3 (n : Nat) (t : Typ3Byte) : List Nat :=
  [n * 8 + typ3_to_byte t]

/-- Modelled from the spec: base-128 unsigned varint with little-endian
continuation bit.  Ten bytes always suffice for a `u64`, matching the
decoder's ten-byte `Overflow` bound, so the encoder loop is given fuel 10. -/
def encode_uvarint_fuel : Nat → Nat → List Nat
  | 0, _ => []
  | fuel + 1, n =>
    if n < 128 then [n]
    else (n % 128 + 128) :: encode_uvarint_fuel fuel (n / 128)

/-- `encode_uvarint` of the amino crate (spec section 4.1). -/
def encode_uvarint (n : Nat) : List Nat :=
  encode_uvarint_fuel 10 n

/-- Modelled from the spec: uvarint decoder; `Truncated` when the stream
ends mid-varint, `Overflow` when more than ten bytes accumulate. -/
def decode_uvarint_fuel : Nat → Nat → Nat → List Nat → DRes Nat
  | 0, _, _, _ => .error (.decodeErr "uvarint overflow")
  | _ + 1, _, _, [] => .error (.decodeErr "Truncated")
  | fuel + 1, shift, acc, b :: rest =>
    if b < 128 then .ok (acc + b * 2 ^ shift, rest)
    else decode_uvarint_fuel fuel (shift + 7) (acc + (b - 128) * 2 ^ shift) rest

/-- `decode_uvarint` of the amino crate (spec section 4.1). -/
def decode_uvarint (s : List Nat) : DRes Nat :=
  decode_uvarint_fuel 10 0 0 s

/-- Zig-zag mapping of a signed integer onto the unsigned naturals, as used
by the protobuf-compatible "sint" encoding (spec section 3). -/
def zigzag (i : Int) : Nat :=
  if 0 ≤ i then (2 * i).toNat else (-(2 * i) - 1).toNat

/-- Inverse of `zigzag`. -/
def unzigzag (u : Nat) : Int :=
  if u % 2 = 0 then (u / 2 : Nat) else -((u / 2 : Nat) : Int) - 1

/-- `encode_varint` of the amino crate: zig-zag over `encode_uvarint`. -/
def encode_varint (i : Int) : List Nat :=
  encode_uvarint (zigzag i)

/-- `decode_varint` of the amino crate: uvarint then un-zig-zag. -/
def decode_varint (s : List Nat) : Except Failure (Int × List Nat) := do
  let (u, s) ← decode_uvarint s
  .ok (unzigzag u, s)

/-- Big-endian byte rendering, `count` bytes of value `v` (low `8*count`
bits). -/
def natToBytesBE : Nat → Nat → List Nat
  | 0, _ => []
  | count + 1, v => natToBytesBE count (v / 256) ++ [v % 256]

/-- Big-endian reassembly of a byte list into a natural number. -/
def bytesToNatBE (l : List Nat) : Nat :=
  l.foldl (fun acc b => acc * 256 + b) 0

/-- Two's-complement reading of a 64-bit natural. -/
def int64OfNat (v : Nat) : Int :=
  if v < 2 ^ 63 then (v : Int) else (v : Int) - 2 ^ 64

/-- Modelled from the amino crate as pinned by the repository test vectors:
`encode_int64` emits eight bytes, big-endian, two's complement (the test
vector encodes height 12345 as `00 00 00 00 00 00 30 39`). -/
def encode_int64 (i : Int) : List Nat :=
  natToBytesBE 8 ((i % ((2 : Int) ^ 64)).toNat)

/-- Modelled from the spec: `encode_uint8` emits the value as a single-byte
varint (uvarint of the byte value, spec section 4.1). -/
def encode_uint8 (n : Nat) : List Nat :=
  encode_uvarint (n % 256)

/-- Read exactly `n` bytes from the stream; `Truncated` when the stream ends
first.  Used by the fallible amino decoders. -/
def read_bytes : Nat → List Nat → DRes (List Nat)
  | 0, s => .ok ([], s)
  | _ + 1, [] => .error (.decodeErr "Truncated")
  | n + 1, b :: rest =>
    match read_bytes n rest with
    | .ok (bs, s) => .ok (b :: bs, s)
    | .error e => .error e

/-- Models `bytes::Buf::get_u8` on a cursor: reading one byte past the end
of the buffer is a panic, not an error return. -/
def get_u8 : List Nat → DRes Nat
  | [] => .error (.panic "advance out of bounds")
  | b :: rest => .ok (b, rest)

/-- Modelled from the spec: `decode_int64` reads eight bytes (mirroring
`encode_int64`, big-endian per the test vectors) as a two's-complement
signed value. -/
def decode_int64 (s : List Nat) : Except Failure (Int × List Nat) := do
  let (bs, s) ← read_bytes 8 s
  .ok (int64OfNat (bytesToNatBE bs), s)

/-- Modelled from the spec: `decode_uint8` is a dedicated single-byte read
(spec section 9 notes the read side is a plain byte, not a varint). -/
def decode_uint8 : List Nat → DRes Nat
  | [] => .error (.decodeErr "Truncated")
  | b :: rest => .ok (b, rest)

/-- `amino_bytes::encode`: uvarint length prefix followed by the bytes. -/
def amino_bytes_encode (bs : List Nat) : List Nat :=
  encode_uvarint bs.length ++ bs

/-- Modelled from the spec: `amino_bytes::decode` reads a uvarint length and
then that many bytes, failing with `Truncated` when the stream ends. -/
def amino_bytes_decode (s : List Nat) : Except Failure (List Nat × List Nat) := do
  let (len, s) ← decode_uvarint s
  read_bytes len s

/-- Modelled from the spec: `check_field_number_typ3` reads one byte and
fails with an `UnexpectedField`-style error unless it equals the expected
packed field key. -/
def check_field_number_typ3 (n : Nat) (t : Typ3Byte) : List Nat → DRes Unit
  | [] => .error (.decodeErr "Truncated")
  | b :: rest =>
    if b = n * 8 + typ3_to_byte t then .ok ((), rest)
    else .error (.decodeErr "unexpected field")

/-- Modelled from the spec: expect one bare `StructTerm` byte. -/
def check_struct_term : List Nat → DRes Unit
  | [] => .error (.decodeErr "Truncated")
  | b :: rest =>
    if b = typ3_to_byte .Typ3_StructTerm then .ok ((), rest)
    else .error (.decodeErr "expected struct term")

/-- Modelled from the spec: `consume_length` of the amino crate reads the
outer uvarint frame length. -/
def consume_length (s : List Nat) : DRes Nat :=
  decode_uvarint s

/-- Modelled from the spec: the four disfix bytes computed by
`compute_disfix("tendermint/socketpv/SignVoteMsg")` are `6c 1d 3a 30`
(hard-coding the name-derived constant per message is allowed by spec
section 3); `Vote::serialize` then ORs the Struct Typ3 into the low nibble
of the fourth byte. -/
def vote_disfix_pre : List Nat :=
  [0x6c, 0x1d, 0x3a, Nat.lor 0x30 (typ3_to_byte .Typ3_Struct)]

/-- Modelled from the spec: `consume_prefix` of the amino crate reads four
bytes and checks them against the registered message's disfix (with the
Struct tag in the low nibble of the fourth byte). -/
def consume_disfix (expected : List Nat) (s : List Nat) : Except Failure (Unit × List Nat) := do
  let (got, s) ← read_bytes 4 s
  if got = expected then .ok ((), s)
  else .error (.decodeErr "disfix mismatch")

/-- An instant as the codec consumes it: seconds since the Unix epoch plus
additional nanoseconds (the `DateTime<Utc>` timestamp of `Vote`). -/
structure TmTime where
  seconds : Int
  nanos : Nat
deriving DecidableEq

/-- Modelled from the amino crate as pinned by the repository test vectors:
`amino_time::encode` emits field 1 (8Byte) seconds big-endian, field 2
(4Byte) nanoseconds big-endian, then one StructTerm. -/
def amino_time_encode (t : TmTime) : List Nat :=
  encode_field_number_typ3 1 .Typ3_8Byte
    ++ natToBytesBE 8 ((t.seconds % ((2 : Int) ^ 64)).toNat)
    ++ encode_field_number_typ3 2 .Typ3_4Byte
    ++ natToBytesBE 4 (t.nanos % 2 ^ 32)
    ++ [typ3_to_byte .Typ3_StructTerm]

/-- Modelled from the spec: `amino_time::decode` mirrors
`amino_time_encode`. -/
def amino_time_decode (s : List Nat) : Except Failure (TmTime × List Nat) := do
  let ((), s) ← check_field_number_typ3 1 .Typ3_8Byte s
  let (secBytes, s) ← read_bytes 8 s
  let ((), s) ← check_field_number_typ3 2 .Typ3_4Byte s
  let (nanoBytes, s) ← read_bytes 4 s
  let ((), s) ← check_struct_term s
  .ok (⟨int64OfNat (bytesToNatBE secBytes), bytesToNatBE nanoBytes⟩, s)

/-- `PartsSetHeader { total: int64, hash: byte_string }` of the repository's
types module. -/
structure PartsSetHeader where
  total : Int
  hash : List Nat
deriving DecidableEq

/-- `BlockID { hash, parts_header }` of the repository's types module. -/
structure BlockID where
  hash : List Nat
  parts_header : PartsSetHeader
deriving DecidableEq

/-- The `VoteType` enum of `vote.rs`. -/
inductive VoteType where
  | PreVote
  | PreCommit
deriving DecidableEq

/-- `vote_type_to_char` of `vote.rs`, as the character's code point. -/
def vote_type_to_char : VoteType → Nat
  | .PreVote => 0x01
  | .PreCommit => 0x02

/-- `char_to_vote_type` of `vote.rs`. -/
def char_to_vote_type (c : Nat) : Except Failure VoteType :=
  if c = 1 then .ok .PreVote
  else if c = 2 then .ok .PreCommit
  else .error (.decodeErr "Invalid vote type")

/-- An ed25519 detached signature (`signatory::ed25519::Signature`, a
64-byte array) as a byte list. -/
structure Signature where
  bytes : List Nat
deriving DecidableEq

/-- The `Vote` record of `vote.rs`. -/
structure Vote where
  validator_address : List Nat
  validator_index : Int
  height : Int
  round : Int
  timestamp : TmTime
  vote_type : VoteType
  block_id : BlockID
  signature : Option Signature
deriving DecidableEq

/-- Body (everything after the length prefix) built by `Vote::serialize`
(vote.rs lines 64-131), chunk by chunk in source order. -/
def Vote.voteBody (v : Vote) : List Nat :=
  vote_disfix_pre
    ++ encode_field_number_typ3 1 .Typ3_Struct
    ++ (if v.validator_address.isEmpty then []
        else encode_field_number_typ3 1 .Typ3_ByteLength
          ++ amino_bytes_encode v.validator_address)
    ++ encode_field_number_typ3 2 .Typ3_Varint
    ++ encode_varint v.validator_index
    ++ encode_field_number_typ3 3 .Typ3_8Byte
    ++ encode_int64 v.height
    ++ encode_field_number_typ3 4 .Typ3_Varint
    ++ encode_varint v.round
    ++ encode_field_number_typ3 5 .Typ3_Struct
    ++ amino_time_encode v.timestamp
    ++ encode_field_number_typ3 6 .Typ3_Varint
    ++ encode_uint8 (vote_type_to_char v.vote_type)
    ++ encode_field_number_typ3 7 .Typ3_Struct
    ++ (if v.block_id.hash.isEmpty then []
        else encode_field_number_typ3 1 .Typ3_ByteLength
          ++ amino_bytes_encode v.block_id.hash)
    ++ encode_field_number_typ3 2 .Typ3_Struct
    ++ encode_field_number_typ3 1 .Typ3_Varint
    ++ encode_varint v.block_id.parts_header.total
    ++ (if v.block_id.parts_header.hash.isEmpty then []
        else encode_field_number_typ3 2 .Typ3_ByteLength
          ++ amino_bytes_encode v.block_id.parts_header.hash)
    ++ [typ3_to_byte .Typ3_StructTerm]
    ++ [typ3_to_byte .Typ3_StructTerm]
    ++ (match v.signature with
        | some sig => encode_field_number_typ3 8 .Typ3_Interface
            ++ amino_bytes_encode sig.bytes
        | none => [])
    ++ [typ3_to_byte .Typ3_StructTerm]
    ++ [typ3_to_byte .Typ3_StructTerm]

/-- `Vote::serialize` (vote.rs lines 64-138): the body prefixed by its
uvarint length. -/
def Vote.serialize (v : Vote) : List Nat :=
  encode_uvarint (Vote.voteBody v).length ++ Vote.voteBody v

/-- Modelled from the spec: `BlockID::decode` (in the repository's types
module, not under `src/`): expects the enclosing field key with Struct
Typ3, then reads the optional hash (peeking for the field-1 ByteLength
key), the mandatory `PartsSetHeader` struct with its varint total and
optional hash, and the two closing StructTerm bytes, per spec sections 4.1,
4.3 and 9 and consistent with the in-tree deserialization test. -/
def BlockID.decode (fieldNum : Nat) (s : List Nat) : Except Failure (BlockID × List Nat) := do
  let ((), s) ← check_field_number_typ3 fieldNum .Typ3_Struct s
  let (hash, s) ←
    match s with
    | b :: rest =>
      if b = 1 * 8 + typ3_to_byte .Typ3_ByteLength then amino_bytes_decode rest
      else .ok (([] : List Nat), b :: rest)
    | [] => .ok (([] : List Nat), ([] : List Nat))
  let ((), s) ← check_field_number_typ3 2 .Typ3_Struct s
  let ((), s) ← check_field_number_typ3 1 .Typ3_Varint s
  let (total, s) ← decode_varint s
  let (parts_hash, s) ←
    match s with
    | b :: rest =>
      if b = 2 * 8 + typ3_to_byte .Typ3_ByteLength then amino_bytes_decode rest
      else .ok (([] : List Nat), b :: rest)
    | [] => .ok (([] : List Nat), ([] : List Nat))
  let ((), s) ← check_struct_term s
  let ((), s) ← check_struct_term s
  .ok (⟨hash, ⟨total, parts_hash⟩⟩, s)

/-- `Vote::deserialize` (vote.rs lines 140-195), transcribed step by step;
note the hard-coded signature field key `6 << 3 | Interface` on line 171,
the unchecked second closing byte on line 179 (`_struct_term_typ3`), and
the `copy_from_slice` into a 64-byte array on line 174, which panics when
the decoded signature payload is not exactly 64 bytes. -/
def Vote.deserialize (data : List Nat) : Except Failure Vote := do
  let (_len, s) ← consume_length data
  let ((), s) ← consume_disfix vote_disfix_pre s
  let ((), s) ← check_field_number_typ3 1 .Typ3_Struct s
  let ((), s) ← check_field_number_typ3 1 .Typ3_ByteLength s
  let (validator_address, s) ← amino_bytes_decode s
  let ((), s) ← check_field_number_typ3 2 .Typ3_Varint s
  let (validator_index, s) ← decode_varint s
  let ((), s) ← check_field_number_typ3 3 .Typ3_8Byte s
  let (height, s) ← decode_int64 s
  let ((), s) ← check_field_number_typ3 4 .Typ3_Varint s
  let (round, s) ← decode_varint s
  let ((), s) ← check_field_number_typ3 5 .Typ3_Struct s
  let (timestamp, s) ← amino_time_decode s
  let ((), s) ← check_field_number_typ3 6 .Typ3_Varint s
  let (vtByte, s) ← decode_uint8 s
  let vote_type ← char_to_vote_type vtByte
  let (block_id, s) ← BlockID.decode 7 s
  let (optional_typ3, s) ← get_u8 s
  let sig_field_key := Nat.lor (6 * 8) (typ3_to_byte .Typ3_Interface)
  let (signature, optional_typ3, s) ←
    if optional_typ3 = sig_field_key then do
      let (sigBytes, s) ← amino_bytes_decode s
      if sigBytes.length = 64 then
        let (next, s) ← get_u8 s
        .ok ((some ⟨sigBytes⟩ : Option Signature), next, s)
      else .error (.panic "copy_from_slice length mismatch")
    else .ok ((none : Option Signature), optional_typ3, s)
  let (_struct_term_typ3, _s) ← get_u8 s
  if optional_typ3 ≠ typ3_to_byte .Typ3_StructTerm then
    .error (.decodeErr "invalid type for first struct term")
  else
    .ok { validator_address, validator_index, height, round,
          timestamp, vote_type, block_id, signature }

/-- The 20-byte validator address of the in-tree test vectors. -/
def testAddr : List Nat :=
  [0xa3, 0xb2, 0xcc, 0xdd, 0x71, 0x86, 0xf1, 0x68, 0x5f, 0x21,
   0xf2, 0x48, 0x2a, 0xf4, 0xfb, 0x34, 0x46, 0xa8, 0x4b, 0x35]

/-- The instant `2017-12-25T03:00:01.234Z` of the test vectors:
1514170801 seconds since the epoch plus 234000000 nanoseconds. -/
def testTimestamp : TmTime :=
  ⟨1514170801, 234000000⟩

/-- The bytes of the ASCII string "hash". -/
def hashBytes : List Nat := [0x68, 0x61, 0x73, 0x68]

/-- The bytes of the ASCII string "parts_hash". -/
def partsHashBytes : List Nat :=
  [0x70, 0x61, 0x72, 0x74, 0x73, 0x5f, 0x68, 0x61, 0x73, 0x68]

/-- The Vote of test vector (1): full BlockID, no signature. -/
def testVote1 : Vote :=
  { validator_address := testAddr
    validator_index := 56789
    height := 12345
    round := 2
    timestamp := testTimestamp
    vote_type := .PreVote
    block_id := { hash := hashBytes
                  parts_header := { total := 1000000, hash := partsHashBytes } }
    signature := none }

/-- The Vote of test vector (2): nil PartsSetHeader. -/
def testVote2 : Vote :=
  { testVote1 with
    block_id := { hash := hashBytes, parts_header := { total := 0, hash := [] } } }

set_option maxRecDepth 4000 in
/-- Sanity anchor: the embedding reproduces the in-tree expected bytes of
test vector (1) exactly. -/
theorem vote_serialize_matches_test_vector_full :
    Vote.serialize testVote1 =
      [0x58, 0x6c, 0x1d, 0x3a, 0x33, 0xb, 0xa, 0x14, 0xa3, 0xb2, 0xcc, 0xdd, 0x71, 0x86,
       0xf1, 0x68, 0x5f, 0x21, 0xf2, 0x48, 0x2a, 0xf4, 0xfb, 0x34, 0x46, 0xa8, 0x4b, 0x35,
       0x10, 0xaa, 0xf7, 0x6, 0x19, 0x0, 0x0, 0x0, 0x0, 0x0, 0x0, 0x30, 0x39, 0x20, 0x4,
       0x2b, 0x9, 0x0, 0x0, 0x0, 0x0, 0x5a, 0x40, 0x69, 0xb1, 0x15, 0xd, 0xf2, 0x8e, 0x80,
       0x4, 0x30, 0x1, 0x3b, 0xa, 0x4, 0x68, 0x61, 0x73, 0x68, 0x13, 0x8, 0x80, 0x89,
       0x7a, 0x12, 0xa, 0x70, 0x61, 0x72, 0x74, 0x73, 0x5f, 0x68, 0x61, 0x73, 0x68, 0x4,
       0x4, 0x4, 0x4] := by
  rfl

set_option maxRecDepth 4000 in
/-- C3: encoding the Vote of test vector (1) — full BlockID, no signature —
produces exactly 89 bytes, beginning `58 6c 1d 3a 33 0b 0a 14 a3` and
ending `04 04 04 04`. -/
theorem vote_serialize_test_vector_1 :
    (Vote.serialize testVote1).length = 89 ∧
    (Vote.serialize testVote1).take 9 =
      [0x58, 0x6c, 0x1d, 0x3a, 0x33, 0x0b, 0x0a, 0x14, 0xa3] ∧
    (Vote.serialize testVote1).drop 85 = [0x04, 0x04, 0x04, 0x04] := by
  refine ⟨?_, ?_, ?_⟩ <;> rfl

set_option maxRecDepth 4000 in
/-- C5 counterexample: for the Vote with all-empty `parts_header`
(`total = 0`, empty hash), `Vote::serialize` does NOT skip the nested
struct: the encoding ends with the parts_header field tag `0x13`
(field 2, Struct), the total field `08 00`, and the closing StructTerms,
so the claim that neither its tag nor contents appear is false. -/
theorem vote_serialize_nil_parts_not_skipped :
    (Vote.serialize testVote2).drop 68 =
      [0x13, 0x08, 0x00, 0x04, 0x04, 0x04, 0x04] := by
  rfl

set_option maxRecDepth 4000 in
/-- C5 amended: a Vote whose `parts_header` is all-empty still encodes the
parts_header struct — its field-2 Struct tag, the varint-encoded total 0,
and the closing StructTerm all appear; only the empty `parts_header.hash`
is omitted.  For the vector-(2) Vote the output is exactly the 75 expected
bytes of the in-tree test, ending `13 08 00 04 04 04 04`. -/
theorem vote_serialize_test_vector_2 :
    Vote.serialize testVote2 =
      [0x4a, 0x6c, 0x1d, 0x3a, 0x33, 0xb, 0xa, 0x14, 0xa3, 0xb2, 0xcc, 0xdd, 0x71, 0x86,
       0xf1, 0x68, 0x5f, 0x21, 0xf2, 0x48, 0x2a, 0xf4, 0xfb, 0x34, 0x46, 0xa8, 0x4b, 0x35,
       0x10, 0xaa, 0xf7, 0x6, 0x19, 0x0, 0x0, 0x0, 0x0, 0x0, 0x0, 0x30, 0x39, 0x20, 0x4,
       0x2b, 0x9, 0x0, 0x0, 0x0, 0x0, 0x5a, 0x40, 0x69, 0xb1, 0x15, 0xd, 0xf2, 0x8e, 0x80,
       0x4, 0x30, 0x1, 0x3b, 0xa, 0x4, 0x68, 0x61, 0x73, 0x68, 0x13, 0x8, 0x0, 0x4, 0x4,
       0x4, 0x4] := by
  rfl

/-- A 64-byte signature used to probe the signed-vote round trip. -/
def testSig1 : Signature := ⟨List.replicate 64 0xab⟩

/-- Test vector (1) with a signature attached. -/
def testVoteSigned : Vote := { testVote1 with signature := some testSig1 }

set_option maxRecDepth 8000 in
/-- C1: the round trip `deserialize (serialize v) = Ok v` holds for the
unsigned vector-(1) Vote (as the in-tree deserialization test checks), but
fails for the same Vote with a signature present: `serialize` keys the
signature as field 8 / Interface (byte 0x47) while `deserialize` compares
the peeked byte against `6 << 3 | Interface` (0x37, vote.rs line 171), so
the signature branch is never taken and decoding errors out. -/
theorem vote_roundtrip_signature_bug :
    Vote.deserialize (Vote.serialize testVote1) = .ok testVote1 ∧
    Vote.deserialize (Vote.serialize testVoteSigned) =
      .error (.decodeErr "invalid type for first struct term") := by
  exact ⟨rfl, rfl⟩

/-- A second 64-byte signature (bytes 0..63) for the field-key probe. -/
def testSig2 : Signature := ⟨List.range 64⟩

/-- Test vector (1) with the second signature attached. -/
def testVoteSigned2 : Vote := { testVote1 with signature := some testSig2 }

set_option maxRecDepth 8000 in
/-- C2: the decoder's signature-prefix byte is `6 << 3 | Interface` (0x37),
not `field_tag(8, Interface)` (0x47) as claimed: deserializing the encoder's
own signed output (whose signature key byte, at index 88, is 0x47) fails,
while the same bytes with that one byte replaced by 0x37 are accepted and
the signature is parsed. -/
theorem vote_signature_field_key_mismatch :
    Vote.deserialize (Vote.serialize testVoteSigned2) =
      .error (.decodeErr "invalid type for first struct term") ∧
    Vote.deserialize ((Vote.serialize testVoteSigned2).set 88
        (Nat.lor (6 * 8) (typ3_to_byte .Typ3_Interface))) =
      .ok testVoteSigned2 := by
  exact ⟨rfl, rfl⟩

/-- Test vector (1) with an empty validator address. -/
def testVoteNoAddr : Vote := { testVote1 with validator_address := [] }

set_option maxRecDepth 8000 in
/-- C4 counterexample: for a Vote with empty `validator_address`,
`Vote::serialize` omits field 1, but `Vote::deserialize` does not tolerate
the omission — it demands the field-1 ByteLength key (vote.rs line 146) and
fails on the field-2 key found there instead of returning the Vote. -/
theorem vote_empty_address_decode_fails :
    Vote.deserialize (Vote.serialize testVoteNoAddr) =
      .error (.decodeErr "unexpected field") := by
  rfl

set_option maxRecDepth 8000 in
/-- C7 counterexample: `Vote::deserialize` accepts an input whose second
closing byte is not a StructTerm: vector (1) with its final byte replaced
by 0xff still decodes to `Ok` — the byte is read into the unused
`_struct_term_typ3` (vote.rs line 179) and never checked. -/
theorem vote_deserialize_ignores_second_term :
    Vote.deserialize ((Vote.serialize testVote1).set 88 0xff) = .ok testVote1 := by
  rfl

set_option maxRecDepth 8000 in
/-- C7 amended: only the first of the two closing bytes is validated:
corrupting the second closing byte (index 88) is accepted, while corrupting
the first closing byte (index 87) is rejected with the "invalid type for
first struct term" error. -/
theorem vote_deserialize_checks_only_first_term :
    Vote.deserialize ((Vote.serialize testVote1).set 88 0xff) = .ok testVote1 ∧
    Vote.deserialize ((Vote.serialize testVote1).set 87 0x05) =
      .error (.decodeErr "invalid type for first struct term") := by
  exact ⟨rfl, rfl⟩

/-- A frame with a self-consistent length prefix whose body stops right
after the BlockID: 86 bytes of vector (1)'s body, cut before the closing
StructTerm bytes. -/
def truncatedAfterBlockId : List Nat :=
  encode_uvarint 86 ++ (Vote.voteBody testVote1).take 86

/-- A frame truncated in the middle of the validator-address field: ten
bytes of vector (1)'s body under a matching length prefix. -/
def truncatedMidAddress : List Nat :=
  encode_uvarint 10 ++ (Vote.voteBody testVote1).take 10

set_option maxRecDepth 8000 in
/-- C8 counterexample: a truncated frame is not always surfaced as a decode
error: when the stream ends immediately after the BlockID, the unguarded
`buf.get_u8()` (vote.rs line 169) reads past the end of the buffer — a
panic, not a `Truncated` error returned to the caller. -/
theorem vote_deserialize_truncated_panics :
    Vote.deserialize truncatedAfterBlockId =
      .error (.panic "advance out of bounds") := by
  rfl

set_option maxRecDepth 8000 in
/-- C8 amended: truncation inside a length-prefixed field is reported as a
`Truncated` decode error, but a stream ending right after the BlockID hits
the unchecked `get_u8` reads and panics instead — `deserialize` is not
total on truncated inputs. -/
theorem vote_deserialize_truncation_behavior :
    Vote.deserialize truncatedAfterBlockId =
      .error (.panic "advance out of bounds") ∧
    Vote.deserialize truncatedMidAddress =
      .error (.decodeErr "Truncated") := by
  exact ⟨rfl, rfl⟩

/-- A well-formed frame carrying the decoder's accepted signature key 0x37
followed by a 2-byte (not 64-byte) length-prefixed payload. -/
def shortSignatureInput : List Nat :=
  encode_uvarint 92 ++
    ((Vote.voteBody testVote1).take 86 ++ [0x37, 0x02, 0xaa, 0xbb, 0x04, 0x04])

set_option maxRecDepth 8000 in
/-- C10: when the signature-prefix byte the decoder accepts (0x37) is
present but the length-prefixed payload is 2 bytes instead of
SIGNATURE_SIZE = 64, `copy_from_slice` into the 64-byte array
(vote.rs lines 173-174) panics: `deserialize` is not total at its public
interface. -/
theorem vote_deserialize_short_signature_panics :
    Vote.deserialize shortSignatureInput =
      .error (.panic "copy_from_slice length mismatch") := by
  rfl

/-- Upper-case hexadecimal digit for a nibble. -/
def hexDigitUpper (n : Nat) : Char :=
  if n < 10 then Char.ofNat (48 + n) else Char.ofNat (55 + n)

/-- Lower-case hexadecimal digit for a nibble. -/
def hexDigitLower (n : Nat) : Char :=
  if n < 10 then Char.ofNat (48 + n) else Char.ofNat (87 + n)

/-- `hex::encode_upper`: upper-case hex rendering of a byte string. -/
def encode_upper (bs : List Nat) : String :=
  String.mk (bs.foldr
    (fun b acc => hexDigitUpper (b / 16 % 16) :: hexDigitUpper (b % 16) :: acc) [])

/-- Modelled from the spec: serde_json's escaping of one character inside a
JSON string: quote and backslash get a backslash escape, the named control
characters get their short forms, all other control characters become
`\u00XX` (lower-case hex), and everything else passes through. -/
def escape_char (c : Char) : String :=
  let n := c.toNat
  if n = 34 then "\\\""
  else if n = 92 then "\\\\"
  else if n = 8 then "\\b"
  else if n = 9 then "\\t"
  else if n = 10 then "\\n"
  else if n = 12 then "\\f"
  else if n = 13 then "\\r"
  else if n < 32 then
    String.mk ['\\', 'u', '0', '0', hexDigitLower (n / 16), hexDigitLower (n % 16)]
  else String.singleton c

/-- serde_json escaping applied to a whole string. -/
def escape_string (s : String) : String :=
  String.join (s.toList.map escape_char)

/-- Civil date (year, month, day) from days since the Unix epoch: the
standard era-based conversion used by calendar libraries (chrono included),
with truncating integer division as in the reference formulation. -/
def civil_from_days (z0 : Int) : Int × Nat × Nat :=
  let z := z0 + 719468
  let era := (if 0 ≤ z then z else z - 146096) / 146097
  let doe := (z - era * 146097).toNat
  let yoe := (doe - doe / 1460 + doe / 36524 - doe / 146096) / 365
  let doy := doe - (365 * yoe + yoe / 4 - yoe / 100)
  let mp := (5 * doy + 2) / 153
  let d := doy - (153 * mp + 2) / 5 + 1
  let m := if mp < 10 then mp + 3 else mp - 9
  ((yoe : Int) + era * 400 + (if m ≤ 2 then 1 else 0), m, d)

/-- Zero-padded decimal rendering of a natural number to `w` digits. -/
def padNat (w : Nat) (n : Nat) : String :=
  String.mk (List.replicate (w - (toString n).length) '0') ++ toString n

/-- chrono's auto-width subsecond fraction: empty when zero, 3 digits when
a whole number of milliseconds, 6 when whole microseconds, 9 otherwise. -/
def nanosFraction (nanos : Nat) : String :=
  if nanos = 0 then ""
  else if nanos % 1000000 = 0 then "." ++ padNat 3 (nanos / 1000000)
  else if nanos % 1000 = 0 then "." ++ padNat 6 (nanos / 1000)
  else "." ++ padNat 9 nanos

/-- Modelled from the chrono crate: `DateTime::<Utc>::to_rfc3339` renders
`YYYY-MM-DDTHH:MM:SS` with the auto-width fraction and the numeric offset
`+00:00` (not `Z`) for the Utc zone. -/
def to_rfc3339 (t : TmTime) : String :=
  let days := Int.ediv t.seconds 86400
  let sod := (Int.emod t.seconds 86400).toNat
  let c := civil_from_days days
  let yearStr := if 0 ≤ c.1 then padNat 4 c.1.toNat else "-" ++ padNat 4 (-c.1).toNat
  yearStr ++ "-" ++ padNat 2 c.2.1 ++ "-" ++ padNat 2 c.2.2
    ++ "T" ++ padNat 2 (sod / 3600) ++ ":" ++ padNat 2 (sod / 60 % 60)
    ++ ":" ++ padNat 2 (sod % 60) ++ nanosFraction t.nanos ++ "+00:00"

/-- `Vote::cannonicalize` (vote.rs lines 43-60): the `serde_json` rendering
of the `json!` mapping; `Value::to_string` prints object keys in sorted
(BTreeMap) order with no whitespace, which coincides with the literal order
of the source, and the timestamp is `self.timestamp.to_rfc3339()`. -/
def Vote.cannonicalize (v : Vote) (chain_id : String) : String :=
  "\x7b\"@chain_id\":\"" ++ escape_string chain_id
    ++ "\",\"@type\":\"vote\",\"block_id\":\x7b\"hash\":\"" ++ encode_upper v.block_id.hash
    ++ "\",\"parts\":\x7b\"hash\":\"" ++ encode_upper v.block_id.parts_header.hash
    ++ "\",\"total\":" ++ toString v.block_id.parts_header.total
    ++ "\x7d\x7d,\"height\":" ++ toString v.height
    ++ ",\"round\":" ++ toString v.round
    ++ ",\"timestamp\":\"" ++ to_rfc3339 v.timestamp
    ++ "\",\"type\":\"" ++ escape_char (Char.ofNat (vote_type_to_char v.vote_type))
    ++ "\"\x7d"

/-- Does the character list start with the pattern? -/
def listStarts : List Char → List Char → Bool
  | [], _ => true
  | _ :: _, [] => false
  | p :: ps, c :: cs => p == c && listStarts ps cs

/-- Does the pattern occur as a contiguous run of the character list? -/
def listHasRun (pat : List Char) : List Char → Bool
  | [] => listStarts pat []
  | c :: cs => listStarts pat (c :: cs) || listHasRun pat cs

/-- Substring containment on strings, by character runs. -/
def strContainsB (s pat : String) : Bool :=
  listHasRun pat.toList s.toList

set_option maxRecDepth 8000 in
/-- C6 counterexample: the canonical JSON of vector (1) with
`chain_id = "test-chain"` does not contain the claimed Z-zoned timestamp
`2017-12-25T03:00:01.234Z`: chrono's `to_rfc3339` renders the Utc offset as
`+00:00`. -/
theorem vote_cannonicalize_no_z_timestamp :
    strContainsB (Vote.cannonicalize testVote1 "test-chain")
      "2017-12-25T03:00:01.234Z" = false := by
  rfl

set_option maxRecDepth 8000 in
/-- C6 amended: the canonical JSON of vector (1) with
`chain_id = "test-chain"` contains `"type":"\u0001"` (the vote type as an
escaped string character), the timestamp rendered as
`"2017-12-25T03:00:01.234+00:00"` (RFC 3339 with the numeric `+00:00`
offset chrono emits for Utc), and the block hash as upper-case hex
`"68617368"`. -/
theorem vote_cannonicalize_contents :
    strContainsB (Vote.cannonicalize testVote1 "test-chain")
      "\"type\":\"\\u0001\"" = true ∧
    strContainsB (Vote.cannonicalize testVote1 "test-chain")
      "\"timestamp\":\"2017-12-25T03:00:01.234+00:00\"" = true ∧
    strContainsB (Vote.cannonicalize testVote1 "test-chain")
      "\"68617368\"" = true := by
  refine ⟨?_, ?_, ?_⟩ <;> rfl

/-- `SignRequest { public_key: 32-byte, msg: byte_string }` of the rpc
module. -/
structure SignRequest where
  public_key : List Nat
  msg : List Nat
deriving DecidableEq

/-- `SignResponse { sig: 64-byte }` of the rpc module. -/
structure SignResponse where
  sig : List Nat
deriving DecidableEq

/-- The request kinds the session multiplexes (`rpc::Request`); `PoisonPill`
is the debug-only shutdown sentinel. -/
inductive Request where
  | sign (req : SignRequest)
  | poisonPill
deriving DecidableEq

/-- The response kinds (`rpc::Response`). -/
inductive Response where
  | sign (resp : SignResponse)
deriving DecidableEq

/-- Errors the session surfaces (`error::Error`): keyring misses, malformed
keys, decode and IO failures are all propagated to the caller. -/
inductive SessionError where
  | unknownPublicKey
  | invalidKey
  | ioError
deriving DecidableEq

/-- Modelled from the spec: the keyring is the external mapping from public
key to signing capability, exposing `sign(pk, msg) -> signature`. -/
structure Keyring where
  sign : List Nat → List Nat → Except SessionError (List Nat)

/-- The `Session` state (session.rs): the keyring it holds; the socket is
modelled by passing the already-read request in and collecting the written
responses out. -/
structure Session where
  keyring : Keyring

/-- Modelled from the spec: `PublicKey::from_bytes` of the ed25519 module
accepts exactly 32-byte keys. -/
def publicKeyFromBytes (bs : List Nat) : Except SessionError (List Nat) :=
  if bs.length = 32 then .ok bs else .error .invalidKey

/-- `Session::sign` (session.rs lines 41-48): parse the public key, ask the
keyring for a signature over `msg`, wrap it as a `Sign` response. -/
def Session.sign (s : Session) (request : SignRequest) : Except SessionError Response := do
  let pk ← publicKeyFromBytes request.public_key
  let signature ← s.keyring.sign pk request.msg
  .ok (Response.sign ⟨signature⟩)

/-- `Session::handle_request` (session.rs lines 29-38) with `Request::read`
modelled as the already-decoded request and the socket writes collected in
the returned list: `PoisonPill` returns the stop flag without writing;
`Sign` writes exactly one response (`write_all` of `response.to_vec()`) and
returns the continue flag; errors from `sign` propagate. -/
def Session.handle_request (s : Session) (req : Request) :
    Except SessionError (Bool × List Response) :=
  match req with
  | .poisonPill => .ok (false, [])
  | .sign r => do
      let response ← s.sign r
      .ok (true, [response])

/-- C9: `handle_request` on a `PoisonPill` returns the stop flag `false`
with no responses written; on a `Sign` request whose signing succeeds it
returns the continue flag `true` having written exactly that one
response. -/
theorem session_handle_request_dispatch (s : Session) (r : SignRequest)
    (resp : Response) (h : Session.sign s r = .ok resp) :
    Session.handle_request s Request.poisonPill = .ok (false, []) ∧
    Session.handle_request s (Request.sign r) = .ok (true, [resp]) := by
  refine ⟨rfl, ?_⟩
  simp only [Session.handle_request, h]
  rfl

/-- A demonstration keyring that signs everything with 64 zero bytes. -/
def demoKeyring : Keyring := ⟨fun _ _ => .ok (List.replicate 64 0)⟩

/-- A demonstration session holding `demoKeyring`. -/
def demoSession : Session := ⟨demoKeyring⟩

/-- A demonstration request with a 32-byte public key. -/
def demoSignRequest : SignRequest := ⟨List.replicate 32 1, [1, 2, 3]⟩

/-- Witness for C9 at a concrete session and request. -/
theorem session_handle_request_dispatch_witness :
    Session.handle_request demoSession Request.poisonPill = .ok (false, []) ∧
    Session.handle_request demoSession (Request.sign demoSignRequest) =
      .ok (true, [Response.sign ⟨List.replicate 64 0⟩]) :=
  session_handle_request_dispatch demoSession demoSignRequest
    (Response.sign ⟨List.replicate 64 0⟩) rfl

/-- Decoding inverts encoding for base-128 varints, for any value within
the fuel bound, any partially accumulated state, and any trailing bytes. -/
theorem uvarint_round_trip_fuel (f : Nat) :
    ∀ (n shift acc : Nat) (rest : List Nat), n < 128 ^ (f + 1) →
      decode_uvarint_fuel (f + 1) shift acc (encode_uvarint_fuel (f + 1) n ++ rest) =
        .ok (acc + n * 2 ^ shift, rest) := by
  induction f with
  | zero =>
    intro n shift acc rest hn
    have h : n < 128 := by simpa using hn
    simp [encode_uvarint_fuel, decode_uvarint_fuel, h]
  | succ f ih =>
    intro n shift acc rest hn
    by_cases h : n < 128
    · simp [encode_uvarint_fuel, decode_uvarint_fuel, h]
    · have hdiv : n / 128 < 128 ^ (f + 1) := by
        rw [Nat.div_lt_iff_lt_mul (by norm_num : (0 : Nat) < 128)]
        calc n < 128 ^ (f + 1 + 1) := hn
          _ = 128 ^ (f + 1) * 128 := by rw [pow_succ]
      have hm : n % 128 + 128 * (n / 128) = n := Nat.mod_add_div n 128
      have harith : acc + n % 128 * 2 ^ shift + n / 128 * 2 ^ (shift + 7)
          = acc + n * 2 ^ shift := by
        calc acc + n % 128 * 2 ^ shift + n / 128 * 2 ^ (shift + 7)
            = acc + (n % 128 + 128 * (n / 128)) * 2 ^ shift := by
              rw [pow_add]; ring
          _ = acc + n * 2 ^ shift := by rw [hm]
      have henc : encode_uvarint_fuel (f + 1 + 1) n
          = (n % 128 + 128) :: encode_uvarint_fuel (f + 1) (n / 128) := by
        rw [encode_uvarint_fuel]
        exact if_neg h
      rw [henc, List.cons_append]
      have hdec : decode_uvarint_fuel (f + 1 + 1) shift acc
            ((n % 128 + 128) :: (encode_uvarint_fuel (f + 1) (n / 128) ++ rest))
          = decode_uvarint_fuel (f + 1) (shift + 7)
              (acc + (n % 128 + 128 - 128) * 2 ^ shift)
              (encode_uvarint_fuel (f + 1) (n / 128) ++ rest) := by
        rw [decode_uvarint_fuel]
        exact if_neg (by omega)
      rw [hdec, show n % 128 + 128 - 128 = n % 128 from by omega,
          ih (n / 128) (shift + 7) (acc + n % 128 * 2 ^ shift) rest hdiv, harith]

/-- The uvarint length prefix written by the encoder is read back exactly,
leaving the body as the remaining stream. -/
theorem decode_encode_uvarint (n : Nat) (rest : List Nat) (h : n < 128 ^ 10) :
    decode_uvarint (encode_uvarint n ++ rest) = .ok (n, rest) := by
  have := uvarint_round_trip_fuel 9 n 0 0 rest h
  simpa [decode_uvarint, encode_uvarint] using this

/-- The disfix constant evaluated: `6c 1d 3a 33`. -/
theorem vote_disfix_pre_eval : vote_disfix_pre = [0x6c, 0x1d, 0x3a, 0x33] := rfl

/-- Any framed body that opens the payload struct and then presents the
field-2 Varint key where the decoder demands the field-1 ByteLength key is
rejected with the field-mismatch error, whatever follows. -/
theorem deserialize_missing_field1 (body : List Nat)
    (hb : body.take 6 = [0x6c, 0x1d, 0x3a, 0x33, 0x0b, 0x10])
    (h : body.length < 128 ^ 10) :
    Vote.deserialize (encode_uvarint body.length ++ body) =
      .error (.decodeErr "unexpected field") := by
  obtain ⟨t, ht⟩ : ∃ t, body = 0x6c :: 0x1d :: 0x3a :: 0x33 :: 0x0b :: 0x10 :: t := by
    refine ⟨body.drop 6, ?_⟩
    conv_lhs => rw [← List.take_append_drop 6 body]
    rw [hb]
    rfl
  subst ht
  have hc := decode_encode_uvarint
    ((0x6c :: 0x1d :: 0x3a :: 0x33 :: 0x0b :: 0x10 :: t).length)
    (0x6c :: 0x1d :: 0x3a :: 0x33 :: 0x0b :: 0x10 :: t) h
  simp only [Vote.deserialize, consume_length, hc]
  rfl

/-- C4 amended: for every Vote with empty `validator_address` (whose body
fits the `usize` frame bound), `Vote::serialize` omits field 1 — byte 5 of
the body is the field-2 Varint key `0x10`, not the field-1 ByteLength key
`0x0a` — but `Vote::deserialize` does not tolerate the omission: it fails
with a field-mismatch decode error instead of returning the Vote. -/
theorem vote_empty_address_omitted_not_tolerated (v : Vote)
    (haddr : v.validator_address = [])
    (hlen : (Vote.voteBody v).length < 2 ^ 64) :
    (Vote.voteBody v).take 6 = [0x6c, 0x1d, 0x3a, 0x33, 0x0b, 0x10] ∧
    Vote.deserialize (Vote.serialize v) = .error (.decodeErr "unexpected field") := by
  have htake : (Vote.voteBody v).take 6 = [0x6c, 0x1d, 0x3a, 0x33, 0x0b, 0x10] := by
    simp [Vote.voteBody, vote_disfix_pre_eval, encode_field_number_typ3,
          typ3_to_byte, haddr]
  refine ⟨htake, ?_⟩
  have h10 : (Vote.voteBody v).length < 128 ^ 10 :=
    lt_trans hlen (by norm_num)
  exact deserialize_missing_field1 (Vote.voteBody v) htake h10

set_option maxRecDepth 8000 in
/-- Witness for the C4 amended theorem at the concrete empty-address
Vote. -/
theorem vote_empty_address_omitted_not_tolerated_witness :
    (Vote.voteBody testVoteNoAddr).take 6 = [0x6c, 0x1d, 0x3a, 0x33, 0x0b, 0x10] ∧
    Vote.deserialize (Vote.serialize testVoteNoAddr) =
      .error (.decodeErr "unexpected field") :=
  vote_empty_address_omitted_not_tolerated testVoteNoAddr rfl
    (by rw [show (Vote.voteBody testVoteNoAddr).length = 66 from rfl]; norm_num)
